import Mathlib

/-!
Shallow embedding of `src/denovos/annotate_vcf_with_denovo_lls.py`.

The script merges a HipSTR genotype VCF (the primary stream) with a
DenovoFinder log-likelihood VCF (the secondary stream): it pairs records by
coordinate, validates the pairing, unifies the two FORMAT-field schemas once,
and emits combined per-sample records.

Modelling conventions:
* A PyVCF record is a `Record`; allele objects are embedded as the strings
  `str()` produces for them, so the source's `str(a) != str(b)` comparisons
  become plain string disequality.
* A record's `FORMAT` is embedded already split on `':'` (the source always
  consumes it through `FORMAT.split(':')`); the output-side
  `":".join(fields)` is `String.intercalate ":" fields`.
* `exit(msg)` becomes an `Except.error msg` / `RunResult.fatal msg` value;
  the uncaught `StopIteration` that `ll_vcf_reader.next()` raises on an
  exhausted stream (it is raised inside a plain `for` body, so it propagates
  out of `main`) becomes `RunResult.stopIteration`; the uncaught
  `ValueError` that `vcf.model.make_calldata_tuple(fields)` raises when the
  merged field list repeats a name (`collections.namedtuple` rejects
  duplicate field names) becomes `RunResult.valueError`.
* Each `RunResult` constructor records whether the output header had been
  written (the `vcf.Writer` is created after the two start-up checks) and
  the records written before the run ended.
* Mutable state (`ll_record`, `gt_vcf_reader.formats`) is threaded
  explicitly through `mergeLoop` / `unifyFormats`.
-/

namespace AnnotateVCF

/-- Metadata of one FORMAT field as held in a PyVCF reader's `formats`
registry (name excluded; the registry key carries it). -/
structure FormatInfo where
  num : Option Int
  type : String
deriving DecidableEq, Repr

/-- One sample call of a record: `sample.sample` is the sample identifier,
`data` maps field names to the values `sample[key]` returns. -/
structure Sample where
  sample : String
  data : List (String × String)
deriving DecidableEq, Repr

/-- A VCF record as the script reads it: coordinate fields, alleles as
strings, the FORMAT field split on `':'`, and the sample calls. -/
structure Record where
  CHROM : String
  POS : Int
  ID : String
  REF : String
  ALT : List String
  FORMAT : List String
  samples : List Sample
deriving DecidableEq, Repr

/-- One entry of `sampdat`: `some v` is a value taken from a source record,
and a key missing from the consulted call is `none` (a Python `KeyError`);
the missing-value marker `"."` appears as `some "."`. -/
abbrev SampValue := Option String

/-- A rebuilt sample call: the identifier and the `sampdat` list, parallel
to the merged field list. -/
structure OutSample where
  sample : String
  sampdat : List SampValue
deriving DecidableEq, Repr

/-- A record as written to the output: the primary record with its FORMAT
re-joined from the merged field list and its samples replaced, plus the
per-field type/num metadata appended to `samp_fmt`. -/
structure OutRecord where
  CHROM : String
  POS : Int
  ID : String
  REF : String
  ALT : List String
  FORMAT : String
  fields : List String
  samp_types : List (Option String)
  samp_nums : List (Option (Option Int))
  samples : List OutSample
deriving DecidableEq, Repr

/-- A VCF reader: its sample list, its FORMAT registry (`reader.formats`),
and the stream of records it will yield. -/
structure Reader where
  samples : List String
  formats : List (String × FormatInfo)
  records : List Record
deriving DecidableEq, Repr

/-- How a whole run ends: normal termination, `exit(msg)`, the uncaught
`StopIteration` from refilling the secondary buffer, or the uncaught
`ValueError` that `vcf.model.make_calldata_tuple(fields)` raises (through
`collections.namedtuple`) when the merged field list repeats a name.  Each
constructor carries whether the header had been written and the records
written so far (in emission order). -/
inductive RunResult where
  | ok (headerWritten : Bool) (written : List OutRecord)
  | fatal (msg : String) (headerWritten : Bool) (written : List OutRecord)
  | stopIteration (headerWritten : Bool) (written : List OutRecord)
  | valueError (headerWritten : Bool) (written : List OutRecord)
deriving DecidableEq, Repr

/-- The records a run wrote to the output stream, however it ended. -/
def RunResult.written : RunResult → List OutRecord
  | .ok _ w => w
  | .fatal _ _ w => w
  | .stopIteration _ w => w
  | .valueError _ w => w

/-- `records_match(rec_a, rec_b)`: sequential checks, each `exit`ing with
its message on failure; compares CHROM, POS, ID, `str(REF)`, `len(ALT)` and
then each `str(ALT[i])`. -/
def altsMatch : List String → List String → Except String Unit
  | [], [] => .ok ()
  | a :: as, b :: bs =>
    if a ≠ b then .error "ERROR: Record alternate alleles don't match"
    else altsMatch as bs
  | _, _ => .error "ERROR: Record alternate alleles don't match"

/-- The pairing validator of the script (`records_match`). -/
def records_match (rec_a rec_b : Record) : Except String Unit :=
  if rec_a.CHROM ≠ rec_b.CHROM then .error "ERROR: Record chromosomes don't match"
  else if rec_a.POS ≠ rec_b.POS then .error "ERROR: Record positions don't match"
  else if rec_a.ID ≠ rec_b.ID then .error "ERROR: Record IDs don't match"
  else if rec_a.REF ≠ rec_b.REF then .error "ERROR: Record REF alleles don't match"
  else if rec_a.ALT.length ≠ rec_b.ALT.length then
    .error "ERROR: Record alternate alleles don't match"
  else altsMatch rec_a.ALT rec_b.ALT

/-- The schema-unification loop: `for k,v in ll_vcf_reader.formats.items():`
exits if `k in gt_vcf_reader.formats`, otherwise stores
`gt_vcf_reader.formats[k] = v`; the (mutated) primary registry is returned. -/
def unifyFormats : List (String × FormatInfo) → List (String × FormatInfo) →
    Except String (List (String × FormatInfo))
  | gtFormats, [] => .ok gtFormats
  | gtFormats, (k, v) :: rest =>
    if (gtFormats.lookup k).isSome then
      .error ("ERROR: FORMAT field " ++ k ++ " present in both VCFs")
    else unifyFormats (gtFormats ++ [(k, v)]) rest

/-- The per-record defensive duplicate check: the source compares
`len(gt_fields + denovo_fields)` with `len(gt_fields) + len(denovo_fields)`
and exits when they differ. -/
def duplicateFieldsCheck (gt_fields denovo_fields : List String) : Bool :=
  (gt_fields ++ denovo_fields).length ≠ gt_fields.length + denovo_fields.length

/-- The merged field list: the concatenation, filtered of GL/PL/PHASEDGL
unless `--keep-gls` was given. -/
def mergedFields (keep_LLs : Bool) (gt_fields denovo_fields : List String) :
    List String :=
  if keep_LLs then gt_fields ++ denovo_fields
  else (gt_fields ++ denovo_fields).filter
    (fun x => decide (x ∉ ["GL", "PL", "PHASEDGL"]))

/-- `record.genotype(name)`: the call of the named sample. -/
def genotype (r : Record) (name : String) : Option Sample :=
  r.samples.find? (fun s => s.sample == name)

/-- `ll_record.genotype(sample.sample) if sample.sample in all_ll_samples
else None`. -/
def llSampleFor (all_ll_samples : List String) (ll_record : Record)
    (name : String) : Option Sample :=
  if name ∈ all_ll_samples then genotype ll_record name else none

/-- One `sampdat` entry: `sample[key]` when the field is one of the primary
record's, else `"." if ll_sample is None else ll_sample[key]`. -/
def resolveValue (gt_fields : List String) (sample : Sample)
    (ll_sample : Option Sample) (key : String) : SampValue :=
  if key ∈ gt_fields then sample.data.lookup key
  else
    match ll_sample with
    | none => some "."
    | some ls => ls.data.lookup key

/-- The record the loop body writes for a validated pair: the merged field
list, the `samp_fmt` type/num metadata looked up per field origin, and the
rebuilt sample calls.  The `ValueError` that `make_calldata_tuple` raises
when `fields` repeats a name is modelled at this function's call site in
`mergeLoop`, which only builds and emits a record for a duplicate-free
merged field list. -/
def buildOutRecord (keep_LLs : Bool) (all_ll_samples : List String)
    (gtFormats llFormats : List (String × FormatInfo))
    (gt_record ll_record : Record) : OutRecord :=
  let gt_fields := gt_record.FORMAT
  let denovo_fields := ll_record.FORMAT
  let fields := mergedFields keep_LLs gt_fields denovo_fields
  { CHROM := gt_record.CHROM
    POS := gt_record.POS
    ID := gt_record.ID
    REF := gt_record.REF
    ALT := gt_record.ALT
    FORMAT := String.intercalate ":" fields
    fields := fields
    samp_types := fields.map (fun fmt =>
      if fmt ∈ gt_fields then (gtFormats.lookup fmt).map FormatInfo.type
      else (llFormats.lookup fmt).map FormatInfo.type)
    samp_nums := fields.map (fun fmt =>
      if fmt ∈ gt_fields then (gtFormats.lookup fmt).map FormatInfo.num
      else (llFormats.lookup fmt).map FormatInfo.num)
    samples := gt_record.samples.map (fun sample =>
      { sample := sample.sample
        sampdat := fields.map
          (resolveValue gt_fields sample
            (llSampleFor all_ll_samples ll_record sample.sample)) }) }

/-- `if ll_record is None: ll_record = ll_vcf_reader.next()`: the buffered
record if present, else the head of the secondary stream; `none` is the
`StopIteration` on an exhausted stream. -/
def refillBuffer : Option Record → List Record →
    Option (Record × List Record)
  | some ll, stream => some (ll, stream)
  | none, ll :: stream => some (ll, stream)
  | none, [] => none

/-- The pairing loop of `main`, one iteration per primary record, with the
secondary buffer, the unread secondary stream and the written output as
explicit state.  `samp_fmt = vcf.model.make_calldata_tuple(fields)` runs
before the sample loop and raises an uncaught `ValueError` when `fields`
repeats a name (`collections.namedtuple` rejects duplicate field names),
so a pair whose merged field list is not duplicate-free aborts the run
instead of emitting. -/
def mergeLoop (keep_LLs : Bool) (all_ll_samples : List String)
    (gtFormats llFormats : List (String × FormatInfo)) :
    List Record → Option Record → List Record → List OutRecord → RunResult
  | [], _, _, written => .ok true written.reverse
  | gt_record :: rest, llBuffer, llStream, written =>
    match refillBuffer llBuffer llStream with
    | none => .stopIteration true written.reverse
    | some (ll_record, llStream') =>
      if gt_record.CHROM ≠ ll_record.CHROM ∨ gt_record.POS < ll_record.POS then
        mergeLoop keep_LLs all_ll_samples gtFormats llFormats rest
          (some ll_record) llStream' written
      else
        match records_match gt_record ll_record with
        | .error msg => .fatal msg true written.reverse
        | .ok _ =>
          if duplicateFieldsCheck gt_record.FORMAT ll_record.FORMAT then
            .fatal "ERROR: Duplicate FORMAT fields in the two VCFs" true
              written.reverse
          else
            if (mergedFields keep_LLs gt_record.FORMAT
                ll_record.FORMAT).Nodup then
              mergeLoop keep_LLs all_ll_samples gtFormats llFormats rest none
                llStream'
                (buildOutRecord keep_LLs all_ll_samples gtFormats llFormats
                  gt_record ll_record :: written)
            else .valueError true written.reverse

/-- `main` after argument parsing: the sample-intersection check, the
schema unification, then (header written) the pairing loop. -/
def main (keep_LLs : Bool) (gt_vcf_reader ll_vcf_reader : Reader) :
    RunResult :=
  let all_ll_samples := ll_vcf_reader.samples
  if (all_ll_samples.filter (fun s => decide (s ∈ gt_vcf_reader.samples))).length = 0 then
    .fatal "ERROR: No samples are shared between the raw VCF and the denovo VCF"
      false []
  else
    match unifyFormats gt_vcf_reader.formats ll_vcf_reader.formats with
    | .error msg => .fatal msg false []
    | .ok unified =>
      mergeLoop keep_LLs all_ll_samples unified ll_vcf_reader.formats
        gt_vcf_reader.records none ll_vcf_reader.records []

/-! Concrete fixtures used by witnesses and counterexamples. -/

/-- FORMAT metadata of the primary GT field. -/
def fiGT : FormatInfo := ⟨some 1, "String"⟩

/-- FORMAT metadata of the primary DP field. -/
def fiDP : FormatInfo := ⟨some 1, "Integer"⟩

/-- FORMAT metadata of the secondary DNM field. -/
def fiDNM : FormatInfo := ⟨some 1, "Float"⟩

/-- A primary record at chr1:100. -/
def recGT : Record :=
  ⟨"chr1", 100, "rs1", "A", ["T"], ["GT", "DP"],
    [⟨"s1", [("GT", "0/1"), ("DP", "30")]⟩]⟩

/-- A matching secondary record at chr1:100. -/
def recLL : Record :=
  ⟨"chr1", 100, "rs1", "A", ["T"], ["DNM"], [⟨"s1", [("DNM", "-2.3")]⟩]⟩

/-- A secondary record further downstream, at chr1:150. -/
def recLLfar : Record :=
  ⟨"chr1", 150, "rs2", "A", ["T"], ["DNM"], [⟨"s1", [("DNM", "-1.0")]⟩]⟩

/-- A secondary record upstream of `recGT`, at chr1:50. -/
def recLLbehind : Record :=
  ⟨"chr1", 50, "rs0", "A", ["T"], ["DNM"], [⟨"s1", [("DNM", "-0.5")]⟩]⟩

/-- A primary record on a different chromosome, chr2:100. -/
def recGTother : Record :=
  ⟨"chr2", 100, "rs3", "A", ["T"], ["GT", "DP"],
    [⟨"s1", [("GT", "1/1"), ("DP", "20")]⟩]⟩

/-- The primary reader of the witness runs. -/
def gtReader : Reader := ⟨["s1"], [("GT", fiGT), ("DP", fiDP)], [recGT]⟩

/-- The secondary reader of the witness runs. -/
def llReader : Reader := ⟨["s1"], [("DNM", fiDNM)], [recLL]⟩

/-- A secondary reader whose record stream is already exhausted. -/
def llReaderEmpty : Reader := ⟨["s1"], [("DNM", fiDNM)], []⟩

/-- A secondary record whose FORMAT repeats the primary GT field. -/
def recLLdup : Record :=
  ⟨"chr1", 100, "rs1", "A", ["T"], ["GT"], [⟨"s1", [("GT", "1/1")]⟩]⟩

/-- A secondary reader delivering `recLLdup`. -/
def llReaderDup : Reader := ⟨["s1"], [("DNM", fiDNM)], [recLLdup]⟩

/-- The record `main` writes for the pair `recGT`/`recLL`. -/
def outRec1 : OutRecord :=
  { CHROM := "chr1", POS := 100, ID := "rs1", REF := "A", ALT := ["T"],
    FORMAT := "GT:DP:DNM", fields := ["GT", "DP", "DNM"],
    samp_types := [some "String", some "Integer", some "Float"],
    samp_nums := [some (some 1), some (some 1), some (some 1)],
    samples := [{ sample := "s1", sampdat := [some "0/1", some "30", some "-2.3"] }] }

/-- FORMAT metadata of the GL likelihood field. -/
def fiGL : FormatInfo := ⟨some 3, "Float"⟩

/-- A primary record whose FORMAT carries GT and GL. -/
def recGTgl : Record :=
  ⟨"chr1", 100, "rs1", "A", ["T"], ["GT", "GL"],
    [⟨"s1", [("GT", "0/1"), ("GL", "-1,-2,-3")]⟩]⟩

/-- A secondary record whose FORMAT repeats the primary GL field. -/
def recLLgl : Record :=
  ⟨"chr1", 100, "rs1", "A", ["T"], ["GL"], [⟨"s1", [("GL", "-9")]⟩]⟩

/-- A primary reader delivering `recGTgl`. -/
def gtReaderGL : Reader := ⟨["s1"], [("GT", fiGT), ("GL", fiGL)], [recGTgl]⟩

/-- A secondary reader delivering `recLLgl`. -/
def llReaderGL : Reader := ⟨["s1"], [("DNM", fiDNM)], [recLLgl]⟩

/-- The record `main` writes for the pair `recGTgl`/`recLLgl` under the
default configuration: the duplicated GL is filtered out, not rejected. -/
def outRecGL : OutRecord :=
  { CHROM := "chr1", POS := 100, ID := "rs1", REF := "A", ALT := ["T"],
    FORMAT := "GT", fields := ["GT"],
    samp_types := [some "String"],
    samp_nums := [some (some 1)],
    samples := [{ sample := "s1", sampdat := [some "0/1"] }] }

/-- A primary reader sharing no sample with `llReader`. -/
def gtReaderNoShare : Reader := ⟨["s9"], [("GT", fiGT)], [recGT]⟩

/-- A secondary reader whose GT field collides with the primary registry. -/
def llReaderCollide : Reader := ⟨["s1"], [("GT", fiDNM)], [recLL]⟩

/-- The primary record's call for sample s1. -/
def sampGT : Sample := ⟨"s1", [("GT", "0/1"), ("DP", "30")]⟩

/-- The secondary record's call for sample s1. -/
def sampDNM : Sample := ⟨"s1", [("DNM", "-2.3")]⟩

/-- A call for a sample absent from the secondary stream's sample set. -/
def sampAbsent : Sample := ⟨"s2", [("GT", "0/0"), ("DP", "10")]⟩

/-! Helper lemmas. -/

/-- A key absent from the first association list is looked up in the
second. -/
theorem lookup_append_of_none {β : Type} (l₁ l₂ : List (String × β))
    (k : String) (h : l₁.lookup k = none) :
    (l₁ ++ l₂).lookup k = l₂.lookup k := by
  induction l₁ with
  | nil => rfl
  | cons p t ih =>
    obtain ⟨a, b⟩ := p
    by_cases hk : k = a
    · subst hk
      rw [List.lookup_cons] at h
      simp only [beq_self_eq_true] at h
      exact absurd h (by simp)
    · rw [List.lookup_cons] at h
      rw [List.cons_append, List.lookup_cons]
      simp only [beq_false_of_ne hk] at h ⊢
      exact ih h

/-- A key found in the first association list is still found after
appending. -/
theorem lookup_append_isSome {β : Type} (l₁ l₂ : List (String × β))
    (k : String) (h : (l₁.lookup k).isSome) :
    ((l₁ ++ l₂).lookup k).isSome := by
  induction l₁ with
  | nil => simp at h
  | cons p t ih =>
    obtain ⟨a, b⟩ := p
    by_cases hk : k = a
    · subst hk
      rw [List.cons_append, List.lookup_cons]
      simp only [beq_self_eq_true]
      rfl
    · rw [List.lookup_cons] at h
      rw [List.cons_append, List.lookup_cons]
      simp only [beq_false_of_ne hk] at h ⊢
      exact ih h

/-- The per-record duplicate check is vacuous: list concatenation always
has the summed length. -/
theorem duplicateFieldsCheck_eq_false (gt_fields denovo_fields : List String) :
    duplicateFieldsCheck gt_fields denovo_fields = false := by
  simp [duplicateFieldsCheck]

/-- `altsMatch` succeeds exactly on equal allele lists. -/
theorem altsMatch_ok_iff : ∀ xs ys : List String,
    altsMatch xs ys = Except.ok () ↔ xs = ys := by
  intro xs
  induction xs with
  | nil =>
    intro ys
    cases ys with
    | nil => simp [altsMatch]
    | cons y ys => simp [altsMatch]
  | cons x xs ih =>
    intro ys
    cases ys with
    | nil => simp [altsMatch]
    | cons y ys =>
      by_cases hxy : x = y
      · subst hxy
        simp [altsMatch, ih ys]
      · simp [altsMatch, hxy]

/-- `records_match` succeeds exactly when all compared components agree. -/
theorem records_match_ok_iff (rec_a rec_b : Record) :
    records_match rec_a rec_b = Except.ok () ↔
      (rec_a.CHROM = rec_b.CHROM ∧ rec_a.POS = rec_b.POS ∧
        rec_a.ID = rec_b.ID ∧ rec_a.REF = rec_b.REF ∧
        rec_a.ALT = rec_b.ALT) := by
  unfold records_match
  split_ifs with h1 h2 h3 h4 h5
  · simp [h1]
  · simp [h2]
  · simp [h3]
  · simp [h4]
  · constructor
    · intro h
      exact h.elim
    · rintro ⟨-, -, -, -, hALT⟩
      exact absurd (congrArg List.length hALT) h5
  · rw [altsMatch_ok_iff]
    rw [not_not] at h1 h2 h3 h4
    constructor
    · intro h
      exact ⟨h1, h2, h3, h4, h⟩
    · rintro ⟨-, -, -, -, hALT⟩
      exact hALT

/-- C1: `records_match` returns without error exactly when chromosome,
position, identifier, reference allele and the full ordered alternate-allele
list agree, and any differing component makes it abort with an error. -/
theorem c1_records_match_characterization (rec_a rec_b : Record) :
    (records_match rec_a rec_b = Except.ok () ↔
      (rec_a.CHROM = rec_b.CHROM ∧ rec_a.POS = rec_b.POS ∧
        rec_a.ID = rec_b.ID ∧ rec_a.REF = rec_b.REF ∧
        rec_a.ALT = rec_b.ALT)) ∧
    ((rec_a.CHROM ≠ rec_b.CHROM ∨ rec_a.POS ≠ rec_b.POS ∨
        rec_a.ID ≠ rec_b.ID ∨ rec_a.REF ≠ rec_b.REF ∨
        rec_a.ALT ≠ rec_b.ALT) →
      ∃ msg, records_match rec_a rec_b = Except.error msg) := by
  refine ⟨records_match_ok_iff rec_a rec_b, fun h => ?_⟩
  cases hrm : records_match rec_a rec_b with
  | ok u =>
    cases u
    exact absurd ((records_match_ok_iff rec_a rec_b).mp hrm) (by tauto)
  | error msg => exact ⟨msg, rfl⟩

/-- C1 witness: a matching pair succeeds and a position-differing pair
raises an error. -/
theorem c1_witness :
    records_match recGT recGT = Except.ok () ∧
    (∃ msg, records_match recGT recLLfar = Except.error msg) :=
  ⟨(c1_records_match_characterization recGT recGT).1.mpr
      ⟨rfl, rfl, rfl, rfl, rfl⟩,
    (c1_records_match_characterization recGT recLLfar).2
      (Or.inr (Or.inl (by decide)))⟩

/-- One skipping step of the pairing loop: a chromosome mismatch or a
primary position strictly before the buffered secondary position drops the
primary record and continues with the buffer and stream untouched. -/
theorem mergeLoop_skip (keep_LLs : Bool) (smp : List String)
    (gf lf : List (String × FormatInfo)) (gt_record : Record)
    (rest : List Record) (ll_record : Record) (llStream : List Record)
    (written : List OutRecord)
    (h : gt_record.CHROM ≠ ll_record.CHROM ∨ gt_record.POS < ll_record.POS) :
    mergeLoop keep_LLs smp gf lf (gt_record :: rest) (some ll_record)
        llStream written =
      mergeLoop keep_LLs smp gf lf rest (some ll_record) llStream written := by
  simp only [mergeLoop, refillBuffer]
  rw [if_pos h]

/-- C2: a primary record whose chromosome differs from the buffered
secondary record's, or whose position is strictly below it, is skipped:
nothing is emitted and the loop continues on the remaining primary records
with the same buffered secondary record and unread secondary stream. -/
theorem c2_skip_keeps_buffer (keep_LLs : Bool) (smp : List String)
    (gf lf : List (String × FormatInfo)) (gt_record : Record)
    (rest : List Record) (ll_record : Record) (llStream : List Record)
    (written : List OutRecord)
    (h : gt_record.CHROM ≠ ll_record.CHROM ∨ gt_record.POS < ll_record.POS) :
    mergeLoop keep_LLs smp gf lf (gt_record :: rest) (some ll_record)
        llStream written =
      mergeLoop keep_LLs smp gf lf rest (some ll_record) llStream written :=
  mergeLoop_skip keep_LLs smp gf lf gt_record rest ll_record llStream written h

/-- C2 witness: the concrete primary record at chr1:100 is skipped against
the buffered secondary record at chr1:150. -/
theorem c2_witness :
    mergeLoop false ["s1"] [("GT", fiGT), ("DP", fiDP), ("DNM", fiDNM)]
        [("DNM", fiDNM)] [recGT] (some recLLfar) [] [] =
      mergeLoop false ["s1"] [("GT", fiGT), ("DP", fiDP), ("DNM", fiDNM)]
        [("DNM", fiDNM)] [] (some recLLfar) [] [] :=
  c2_skip_keeps_buffer false ["s1"]
    [("GT", fiGT), ("DP", fiDP), ("DNM", fiDNM)] [("DNM", fiDNM)] recGT []
    recLLfar [] [] (Or.inr (by decide))

/-- C3: a primary record on the buffered secondary record's chromosome but
strictly past its position is not skipped: validation runs and the whole run
aborts with the position-mismatch error. -/
theorem c3_overshoot_aborts (keep_LLs : Bool) (smp : List String)
    (gf lf : List (String × FormatInfo)) (gt_record : Record)
    (rest : List Record) (ll_record : Record) (llStream : List Record)
    (written : List OutRecord)
    (h1 : gt_record.CHROM = ll_record.CHROM)
    (h2 : ll_record.POS < gt_record.POS) :
    mergeLoop keep_LLs smp gf lf (gt_record :: rest) (some ll_record)
        llStream written =
      .fatal "ERROR: Record positions don't match" true written.reverse := by
  have hnoskip : ¬(gt_record.CHROM ≠ ll_record.CHROM ∨
      gt_record.POS < ll_record.POS) := by
    push_neg
    exact ⟨h1, le_of_lt h2⟩
  have hrm : records_match gt_record ll_record =
      Except.error "ERROR: Record positions don't match" := by
    unfold records_match
    rw [if_neg (not_not.mpr h1), if_pos h2.ne']
  simp only [mergeLoop, refillBuffer]
  rw [if_neg hnoskip, hrm]

/-- C3 witness: the primary record at chr1:100 against the buffered
secondary record at chr1:50 aborts with the position-mismatch error. -/
theorem c3_witness :
    mergeLoop false ["s1"] [("GT", fiGT), ("DP", fiDP), ("DNM", fiDNM)]
        [("DNM", fiDNM)] [recGT] (some recLLbehind) [] [] =
      .fatal "ERROR: Record positions don't match" true [] :=
  c3_overshoot_aborts false ["s1"]
    [("GT", fiGT), ("DP", fiDP), ("DNM", fiDNM)] [("DNM", fiDNM)] recGT []
    recLLbehind [] [] (by decide) (by decide)

/-- C4 counterexample: with one primary record left and the secondary
stream exhausted, the run does not skip silently and terminate normally; it
ends in the uncaught end-of-stream exception (and the primary record is not
emitted). -/
theorem c4_counterexample :
    main false gtReader llReaderEmpty = .stopIteration true [] := by decide

/-- C4 (amended): whenever a primary record remains, the secondary buffer
is empty and the secondary stream is exhausted, the refill attempt raises
an uncaught end-of-stream exception that aborts the run abruptly: the
remaining primary records are not processed and termination is not
normal. -/
theorem c4_exhausted_secondary_aborts (keep_LLs : Bool) (smp : List String)
    (gf lf : List (String × FormatInfo)) (gt_record : Record)
    (rest : List Record) (written : List OutRecord) :
    mergeLoop keep_LLs smp gf lf (gt_record :: rest) none [] written =
      .stopIteration true written.reverse := rfl

/-- C5: the per-record duplicate-field check compares the length of the
concatenated field lists with the sum of their lengths, which are always
equal, so it can never fire and its duplicate-field abort is unreachable:
a pair whose FORMAT lists share GL is emitted without any error under the
default configuration (the duplicate disappears with the excluded
likelihood fields), and a pair whose FORMAT lists share GT aborts not
through the check but through the uncaught ValueError that
`make_calldata_tuple` raises on the duplicated merged field list. -/
theorem c5_duplicate_check_never_fires :
    (∀ gt_fields denovo_fields : List String,
      duplicateFieldsCheck gt_fields denovo_fields = false) ∧
    main false gtReaderGL llReaderGL = .ok true [outRecGL] ∧
    main false gtReader llReaderDup = .valueError true [] := by
  refine ⟨fun gt_fields denovo_fields =>
    duplicateFieldsCheck_eq_false gt_fields denovo_fields, ?_, ?_⟩
  · decide
  · decide

/-- C10: once the buffered secondary record's chromosome differs from that
of every remaining primary record, the loop skips them all: it terminates
normally with no further output, never reading the secondary stream and
keeping the stale buffer to the end. -/
theorem c10_stale_buffer_starves (keep_LLs : Bool) (smp : List String)
    (gf lf : List (String × FormatInfo)) (gts : List Record)
    (ll_record : Record) (llStream : List Record) (written : List OutRecord)
    (h : ∀ gt ∈ gts, gt.CHROM ≠ ll_record.CHROM) :
    mergeLoop keep_LLs smp gf lf gts (some ll_record) llStream written =
      .ok true written.reverse := by
  induction gts with
  | nil => rfl
  | cons gt rest ih =>
    rw [mergeLoop_skip keep_LLs smp gf lf gt rest ll_record llStream written
      (Or.inl (h gt (List.mem_cons_self gt rest)))]
    exact ih (fun g hg => h g (List.mem_cons_of_mem gt hg))

/-- C10 witness: a chr2 primary record against a buffered chr1 secondary
record is skipped and the loop ends with no output. -/
theorem c10_witness :
    mergeLoop false ["s1"] [("GT", fiGT), ("DP", fiDP), ("DNM", fiDNM)]
        [("DNM", fiDNM)] [recGTother, recGTother] (some recLL) [recLLfar]
        [] = .ok true [] :=
  c10_stale_buffer_starves false ["s1"]
    [("GT", fiGT), ("DP", fiDP), ("DNM", fiDNM)] [("DNM", fiDNM)]
    [recGTother, recGTother] recLL [recLLfar] [] (by decide)

/-- If some secondary field name is already registered in the primary
registry, unification exits with the collision error for some field. -/
theorem unifyFormats_collision : ∀ (llF gtF : List (String × FormatInfo)),
    (∃ p ∈ llF, (gtF.lookup p.1).isSome) →
    ∃ k, unifyFormats gtF llF =
      .error ("ERROR: FORMAT field " ++ k ++ " present in both VCFs") := by
  intro llF
  induction llF with
  | nil =>
    intro gtF h
    obtain ⟨p, hp, -⟩ := h
    exact absurd hp (List.not_mem_nil p)
  | cons q rest ih =>
    intro gtF h
    obtain ⟨k, v⟩ := q
    by_cases hk : (gtF.lookup k).isSome
    · exact ⟨k, by simp [unifyFormats, hk]⟩
    · obtain ⟨p, hp, hps⟩ := h
      have hpin : p ∈ rest := by
        rcases List.mem_cons.mp hp with he | h'
        · rw [he] at hps
          exact absurd hps hk
        · exact h'
      have hstep : unifyFormats gtF ((k, v) :: rest) =
          unifyFormats (gtF ++ [(k, v)]) rest := by
        simp [unifyFormats, hk]
      rw [hstep]
      exact ih (gtF ++ [(k, v)]) ⟨p, hpin, lookup_append_isSome gtF _ p.1 hps⟩

/-- Unification of schemas with no shared field name succeeds, appending
the secondary fields to the primary registry in order. -/
theorem unifyFormats_disjoint_ok : ∀ (llF gtF : List (String × FormatInfo)),
    (∀ p ∈ llF, gtF.lookup p.1 = none) → (llF.map Prod.fst).Nodup →
    unifyFormats gtF llF = .ok (gtF ++ llF) := by
  intro llF
  induction llF with
  | nil =>
    intro gtF _ _
    simp [unifyFormats]
  | cons q rest ih =>
    intro gtF hdisj hnodup
    obtain ⟨k, v⟩ := q
    have hknone : gtF.lookup k = none := hdisj (k, v) (List.mem_cons_self _ _)
    have hstep : unifyFormats gtF ((k, v) :: rest) =
        unifyFormats (gtF ++ [(k, v)]) rest := by
      simp [unifyFormats, hknone]
    have hknotin : k ∉ rest.map Prod.fst := by
      simp only [List.map_cons, List.nodup_cons] at hnodup
      exact hnodup.1
    have hdisj' : ∀ p ∈ rest, (gtF ++ [(k, v)]).lookup p.1 = none := by
      intro p hp
      have h1 : gtF.lookup p.1 = none := hdisj p (List.mem_cons_of_mem _ hp)
      have h2 : p.1 ≠ k := by
        intro he
        exact hknotin (he ▸ List.mem_map_of_mem Prod.fst hp)
      rw [lookup_append_of_none gtF _ p.1 h1, List.lookup_cons]
      simp [beq_false_of_ne h2]
    have hnodup' : (rest.map Prod.fst).Nodup := by
      simp only [List.map_cons, List.nodup_cons] at hnodup
      exact hnodup.2
    rw [hstep, ih (gtF ++ [(k, v)]) hdisj' hnodup']
    rw [List.append_assoc]
    rfl

/-- C6: initialization errors precede all output: an empty shared-sample
set aborts with the no-shared-samples error, and (with samples shared) a
secondary FORMAT field already registered in the primary registry aborts
with the field-collision error; both abort before the header or any record
is written. -/
theorem c6_init_errors_precede_output (keep_LLs : Bool) (gtR llR : Reader) :
    (llR.samples.filter (fun s => decide (s ∈ gtR.samples)) = [] →
      main keep_LLs gtR llR =
        .fatal "ERROR: No samples are shared between the raw VCF and the denovo VCF"
          false []) ∧
    (llR.samples.filter (fun s => decide (s ∈ gtR.samples)) ≠ [] →
      (∃ p ∈ llR.formats, (gtR.formats.lookup p.1).isSome) →
      ∃ k, main keep_LLs gtR llR =
        .fatal ("ERROR: FORMAT field " ++ k ++ " present in both VCFs")
          false []) := by
  constructor
  · intro h
    simp [main, h]
  · intro h hcol
    obtain ⟨k, hk⟩ := unifyFormats_collision llR.formats gtR.formats hcol
    have hlen :
        ¬(llR.samples.filter (fun s => decide (s ∈ gtR.samples))).length = 0 := by
      simpa [List.length_eq_zero] using h
    refine ⟨k, ?_⟩
    simp [main, hlen, hk]

/-- C6 witness: a disjoint-samples pair aborts with the no-shared-samples
error, and a GT-collision pair aborts with the field-collision error, in
both cases with the header unwritten and no output. -/
theorem c6_witness :
    main false gtReaderNoShare llReader =
      .fatal "ERROR: No samples are shared between the raw VCF and the denovo VCF"
        false [] ∧
    (∃ k, main false gtReader llReaderCollide =
      .fatal ("ERROR: FORMAT field " ++ k ++ " present in both VCFs")
        false []) :=
  ⟨(c6_init_errors_precede_output false gtReaderNoShare llReader).1 (by decide),
    (c6_init_errors_precede_output false gtReader llReaderCollide).2
      (by decide) ⟨("GT", fiDNM), by decide, by decide⟩⟩

/-- C7: per-sample value resolution: the rebuilt sample calls of an emitted
record resolve each merged field with `resolveValue`; a sample absent from
the secondary sample set gets the missing-value marker for every
secondary-origin field; a sample present in both streams gets
primary-origin fields from its primary call and secondary-origin fields
from its secondary call. -/
theorem c7_sample_resolution (all_ll_samples gt_fields : List String)
    (ll_record : Record) (sample ls : Sample) (key : String) :
    (∀ (keep_LLs : Bool) (gf lf : List (String × FormatInfo))
      (gt_record : Record),
      (buildOutRecord keep_LLs all_ll_samples gf lf gt_record
          ll_record).samples =
        gt_record.samples.map (fun s =>
          ⟨s.sample,
            (mergedFields keep_LLs gt_record.FORMAT ll_record.FORMAT).map
              (resolveValue gt_record.FORMAT s
                (llSampleFor all_ll_samples ll_record s.sample))⟩)) ∧
    (sample.sample ∉ all_ll_samples → key ∉ gt_fields →
      resolveValue gt_fields sample
        (llSampleFor all_ll_samples ll_record sample.sample) key =
        some ".") ∧
    (key ∈ gt_fields →
      resolveValue gt_fields sample
        (llSampleFor all_ll_samples ll_record sample.sample) key =
        sample.data.lookup key) ∧
    (sample.sample ∈ all_ll_samples →
      genotype ll_record sample.sample = some ls → key ∉ gt_fields →
      resolveValue gt_fields sample
        (llSampleFor all_ll_samples ll_record sample.sample) key =
        ls.data.lookup key) := by
  refine ⟨fun keep_LLs gf lf gt_record => rfl, ?_, ?_, ?_⟩
  · intro hs hk
    simp [resolveValue, llSampleFor, hs, hk]
  · intro hk
    simp [resolveValue, hk]
  · intro hs hg hk
    simp [resolveValue, llSampleFor, hs, hg, hk]

/-- C7 witness: sample s2 is absent from the secondary sample set, so its
DNM field is the marker; sample s1 is shared, so GT comes from its primary
call and DNM from its secondary call. -/
theorem c7_witness :
    resolveValue ["GT", "DP"] sampAbsent
        (llSampleFor ["s1"] recLL sampAbsent.sample) "DNM" = some "." ∧
    resolveValue ["GT", "DP"] sampGT
        (llSampleFor ["s1"] recLL sampGT.sample) "GT" =
      sampGT.data.lookup "GT" ∧
    resolveValue ["GT", "DP"] sampGT
        (llSampleFor ["s1"] recLL sampGT.sample) "DNM" =
      sampDNM.data.lookup "DNM" :=
  ⟨(c7_sample_resolution ["s1"] ["GT", "DP"] recLL sampAbsent sampDNM
      "DNM").2.1 (by decide) (by decide),
    (c7_sample_resolution ["s1"] ["GT", "DP"] recLL sampGT sampDNM
      "GT").2.2.1 (by decide),
    (c7_sample_resolution ["s1"] ["GT", "DP"] recLL sampGT sampDNM
      "DNM").2.2.2 (by decide) (by decide) (by decide)⟩

/-- Unfolding of one loop iteration with a buffered secondary record. -/
theorem mergeLoop_cons_some (keep_LLs : Bool) (smp : List String)
    (gf lf : List (String × FormatInfo)) (gt_record : Record)
    (rest : List Record) (ll_record : Record) (llStream : List Record)
    (written : List OutRecord) :
    mergeLoop keep_LLs smp gf lf (gt_record :: rest) (some ll_record)
        llStream written =
      if gt_record.CHROM ≠ ll_record.CHROM ∨ gt_record.POS < ll_record.POS
      then mergeLoop keep_LLs smp gf lf rest (some ll_record) llStream
        written
      else
        match records_match gt_record ll_record with
        | .error msg => .fatal msg true written.reverse
        | .ok _ =>
          if duplicateFieldsCheck gt_record.FORMAT ll_record.FORMAT then
            .fatal "ERROR: Duplicate FORMAT fields in the two VCFs" true
              written.reverse
          else
            if (mergedFields keep_LLs gt_record.FORMAT
                ll_record.FORMAT).Nodup then
              mergeLoop keep_LLs smp gf lf rest none llStream
                (buildOutRecord keep_LLs smp gf lf gt_record ll_record ::
                  written)
            else .valueError true written.reverse := rfl

/-- An empty buffer is refilled from the head of the secondary stream. -/
theorem mergeLoop_cons_refill (keep_LLs : Bool) (smp : List String)
    (gf lf : List (String × FormatInfo)) (gt_record : Record)
    (rest : List Record) (ll_record : Record) (llStream : List Record)
    (written : List OutRecord) :
    mergeLoop keep_LLs smp gf lf (gt_record :: rest) none
        (ll_record :: llStream) written =
      mergeLoop keep_LLs smp gf lf (gt_record :: rest) (some ll_record)
        llStream written := rfl

/-- Any property of every record built by `buildOutRecord` holds for every
record the loop has written at its end. -/
theorem mergeLoop_written_mem (keep_LLs : Bool) (smp : List String)
    (gf lf : List (String × FormatInfo)) (Q : OutRecord → Prop)
    (hbuild : ∀ gt_record ll_record,
      Q (buildOutRecord keep_LLs smp gf lf gt_record ll_record)) :
    ∀ (gts : List Record) (buf : Option Record) (stream : List Record)
      (written : List OutRecord), (∀ r ∈ written, Q r) →
      ∀ r ∈ (mergeLoop keep_LLs smp gf lf gts buf stream written).written,
        Q r := by
  intro gts
  induction gts with
  | nil =>
    intro buf stream written hw r hr
    simp only [mergeLoop, RunResult.written] at hr
    exact hw r (List.mem_reverse.mp hr)
  | cons gt rest ih =>
    intro buf stream written hw
    have step : ∀ (ll : Record) (stream' : List Record),
        ∀ r ∈ (mergeLoop keep_LLs smp gf lf (gt :: rest) (some ll) stream'
          written).written, Q r := by
      intro ll stream' r hr
      rw [mergeLoop_cons_some] at hr
      by_cases hskip : gt.CHROM ≠ ll.CHROM ∨ gt.POS < ll.POS
      · rw [if_pos hskip] at hr
        exact ih (some ll) stream' written hw r hr
      · rw [if_neg hskip] at hr
        cases hrm : records_match gt ll with
        | error msg =>
          rw [hrm] at hr
          simp only [RunResult.written] at hr
          exact hw r (List.mem_reverse.mp hr)
        | ok u =>
          cases u
          rw [hrm] at hr
          simp only [duplicateFieldsCheck_eq_false, Bool.false_eq_true,
            if_false] at hr
          by_cases hnd : (mergedFields keep_LLs gt.FORMAT ll.FORMAT).Nodup
          · rw [if_pos hnd] at hr
            refine ih none stream'
              (buildOutRecord keep_LLs smp gf lf gt ll :: written) ?_ r hr
            intro q hq
            rcases List.mem_cons.mp hq with he | ht
            · rw [he]
              exact hbuild gt ll
            · exact hw q ht
          · rw [if_neg hnd] at hr
            simp only [RunResult.written] at hr
            exact hw r (List.mem_reverse.mp hr)
    cases buf with
    | some ll => exact step ll stream
    | none =>
      cases stream with
      | nil =>
        intro r hr
        simp only [mergeLoop, refillBuffer, RunResult.written] at hr
        exact hw r (List.mem_reverse.mp hr)
      | cons ll stream' =>
        rw [mergeLoop_cons_refill]
        exact step ll stream'

/-- C8: with the default configuration none of GL, PL, PHASEDGL appears in
any emitted record's merged field list; with `--keep-gls` the merged field
list is the full primary-then-secondary concatenation. -/
theorem c8_exclusion_policy (gtR llR : Reader) :
    (∀ r ∈ (main false gtR llR).written, ∀ x ∈ r.fields,
      x ∉ ["GL", "PL", "PHASEDGL"]) ∧
    (∀ (smp : List String) (gf lf : List (String × FormatInfo))
      (gt_record ll_record : Record),
      (buildOutRecord true smp gf lf gt_record ll_record).fields =
        gt_record.FORMAT ++ ll_record.FORMAT) := by
  constructor
  · by_cases hempty :
        (llR.samples.filter (fun s => decide (s ∈ gtR.samples))).length = 0
    · intro r hr
      simp [main, hempty, RunResult.written] at hr
    · cases hu : unifyFormats gtR.formats llR.formats with
      | error msg =>
        intro r hr
        simp [main, hempty, hu, RunResult.written] at hr
      | ok unified =>
        have hm : main false gtR llR = mergeLoop false llR.samples unified
            llR.formats gtR.records none llR.records [] := by
          simp [main, hempty, hu]
        rw [hm]
        refine mergeLoop_written_mem false llR.samples unified llR.formats
          (fun r => ∀ x ∈ r.fields, x ∉ ["GL", "PL", "PHASEDGL"])
          (fun gt_record ll_record x hx => ?_) gtR.records none llR.records
          [] (fun r hr => absurd hr (List.not_mem_nil r))
        have hf : (buildOutRecord false llR.samples unified llR.formats
            gt_record ll_record).fields =
            mergedFields false gt_record.FORMAT ll_record.FORMAT := rfl
        rw [hf] at hx
        unfold mergedFields at hx
        simp only [Bool.false_eq_true, if_false, List.mem_filter,
          decide_eq_true_eq] at hx
        exact hx.2
  · intro smp gf lf gt_record ll_record
    show mergedFields true gt_record.FORMAT ll_record.FORMAT = _
    unfold mergedFields
    rw [if_pos rfl]

/-- C8 witness: GT, a field of the concrete emitted record, is not an
excluded name, and with `--keep-gls` the concrete pair's field list is the
concatenation of the two FORMAT lists. -/
theorem c8_witness :
    "GT" ∉ ["GL", "PL", "PHASEDGL"] ∧
    (buildOutRecord true ["s1"] [("GT", fiGT), ("DP", fiDP), ("DNM", fiDNM)]
        [("DNM", fiDNM)] recGT recLL).fields =
      recGT.FORMAT ++ recLL.FORMAT :=
  ⟨(c8_exclusion_policy gtReader llReader).1 outRec1 (by decide) "GT"
      (by decide),
    (c8_exclusion_policy gtReader llReader).2 ["s1"]
      [("GT", fiGT), ("DP", fiDP), ("DNM", fiDNM)] [("DNM", fiDNM)] recGT
      recLL⟩

/-- C9 counterexample: a first unification run on the disjoint registries
{GT} and {DNM} succeeds and stores DNM into the primary registry, so
running the unification step a second time over the same secondary
registry aborts with the field-collision error instead of yielding the
same unified set without error. -/
theorem c9_counterexample :
    unifyFormats [("GT", fiGT)] [("DNM", fiDNM)] =
      .ok [("GT", fiGT), ("DNM", fiDNM)] ∧
    unifyFormats [("GT", fiGT), ("DNM", fiDNM)] [("DNM", fiDNM)] =
      .error "ERROR: FORMAT field DNM present in both VCFs" :=
  ⟨rfl, rfl⟩

/-- C9 (amended): on registries with disjoint field names a unification
run succeeds and yields the primary fields followed by the secondary
fields — deterministically, so re-running on the same original pair gives
the same set — but the step mutates the primary registry, so re-running it
on the registry the first run left behind aborts with the field-collision
error for the first secondary field. -/
theorem c9_amended_unification (gtF llF : List (String × FormatInfo))
    (hdisj : ∀ p ∈ llF, gtF.lookup p.1 = none)
    (hnodup : (llF.map Prod.fst).Nodup) :
    unifyFormats gtF llF = .ok (gtF ++ llF) ∧
    (∀ (k : String) (v : FormatInfo) (rest : List (String × FormatInfo)),
      llF = (k, v) :: rest →
      unifyFormats (gtF ++ llF) llF =
        .error ("ERROR: FORMAT field " ++ k ++ " present in both VCFs")) := by
  constructor
  · exact unifyFormats_disjoint_ok llF gtF hdisj hnodup
  · intro k v rest hllF
    subst hllF
    have h1 : gtF.lookup k = none := hdisj (k, v) (List.mem_cons_self _ _)
    have h2 : (gtF ++ (k, v) :: rest).lookup k = some v := by
      rw [lookup_append_of_none gtF _ k h1, List.lookup_cons]
      simp
    simp [unifyFormats, h2]

/-- C9 witness: the amended statement at the concrete registries {GT} and
{DNM}: the first run succeeds with the appended registry and the second,
sequential run errors on DNM. -/
theorem c9_witness :
    unifyFormats [("GT", fiGT)] [("DNM", fiDNM)] =
      .ok ([("GT", fiGT)] ++ [("DNM", fiDNM)]) ∧
    unifyFormats ([("GT", fiGT)] ++ [("DNM", fiDNM)]) [("DNM", fiDNM)] =
      .error ("ERROR: FORMAT field " ++ "DNM" ++ " present in both VCFs") :=
  ⟨(c9_amended_unification [("GT", fiGT)] [("DNM", fiDNM)] (by decide)
      (by decide)).1,
    (c9_amended_unification [("GT", fiGT)] [("DNM", fiDNM)] (by decide)
      (by decide)).2 "DNM" fiDNM [] rfl⟩

end AnnotateVCF
